import Mathlib

/-!
# Verification of the Soteria analysis/scoring pipeline

Shallow embedding of the scoring code of this repository
(src/backend/fact_checker.py, src/backend/viral_tracker.py,
src/backend/origin_tracer.py) and proofs about it.

Modelling conventions:
* Python floats are modelled as exact rationals; decimal literals such as
  0.3 denote the corresponding rational.
* Python strings are modelled as Lean strings; substring membership
  (the Python `in` operator) and character counting are defined on the
  underlying character lists.
* Timestamps that the Python code parses from strings and compares are
  modelled as already-parsed rational instants (seconds).
* External fallible components (the transformers classifier, hashlib,
  networkx, the random module) are modelled as explicit function
  parameters; an exception raised by the classifier is an `Except.error`.
-/

namespace Soteria

-- Batteries marks the arithmetic on ℚ irreducible; concrete program runs
-- are checked by kernel evaluation, so reducibility is restored here.
set_option allowUnsafeReducibility true

attribute [local semireducible] Rat.ofScientific Rat.mul Rat.inv Rat.add Rat.sub

/-! ## String helpers (Python `in`, `str.split()`, `str.count`, runs) -/

/-- Boolean test that the first list begins with the second
(Python slice comparison used by substring search). -/
def beginsWith : List Char → List Char → Bool
  | _, [] => true
  | [], _ :: _ => false
  | a :: as, b :: bs => a == b && beginsWith as bs

/-- Python substring membership: `pat in text`. -/
def containsCL (text pat : List Char) : Bool :=
  match text with
  | [] => pat.isEmpty
  | _ :: rest => beginsWith text pat || containsCL rest pat

/-- Number of maximal nonempty whitespace-free runs; the Boolean argument
records whether the previous character was inside a word.
Python `len(text.split())`. -/
def countWordsAux : Bool → List Char → Nat
  | _, [] => 0
  | inWord, c :: cs =>
    if c.isWhitespace then countWordsAux false cs
    else (if inWord then 0 else 1) + countWordsAux true cs

/-- Python `len(text.split())`: the number of whitespace-separated words. -/
def countWords (t : String) : Nat := countWordsAux false t.data

/-- Python `text.lower()` restricted to ASCII case mapping, as the
character list of the lowered text. -/
def lowerStr (t : String) : List Char := t.data.map Char.toLower

/-- Number of maximal runs of at least two ASCII uppercase letters:
Python `len(re.findall(r'[A-Z]{2,}', text))`.  The accumulator is the
length of the current uppercase run. -/
def upperRunsAux : Nat → List Char → Nat
  | run, [] => if 2 ≤ run then 1 else 0
  | run, c :: cs =>
    if c.isUpper then upperRunsAux (run + 1) cs
    else (if 2 ≤ run then 1 else 0) + upperRunsAux 0 cs

/-- Count of uppercase runs of length at least 2 in a string. -/
def upperRuns (t : String) : Nat := upperRunsAux 0 t.data

/-! ## src/backend/fact_checker.py : RealFactChecker -/

/-- The fixed suspicious-term list `fake_indicators` of
`RealFactChecker._analyze_content_patterns`. -/
def fake_indicators : List String :=
  ["breaking", "exclusive", "leaked", "insider sources", "confidential",
   "shocking truth", "they dont want you to know", "revealed",
   "allegedly", "reportedly", "unconfirmed", "sources say",
   "fake news", "hoax", "conspiracy", "cover up"]

/-- The fixed credible-term list `credible_indicators` of
`RealFactChecker._analyze_content_patterns`. -/
def credible_indicators : List String :=
  ["confirmed", "verified", "official statement", "press release",
   "according to", "study shows", "research indicates",
   "peer reviewed", "expert analysis"]

/-- `sum(1 for indicator in indicators if indicator in text_lower)`:
how many of the given terms occur as substrings (membership count,
one per term, not an occurrence count). -/
def countHits (textLower : List Char) (indicators : List String) : Nat :=
  (indicators.filter (fun p => containsCL textLower p.data)).length

/-- The arithmetic core of `_analyze_content_patterns` on the suspicious
membership count `s`, the credible membership count `c` and the word
count `n`:  `min(s / max(n/10, 1) - c / max(n/10, 1) + 0.5, 1.0)`. -/
def pattern_score_core (s c n : Nat) : ℚ :=
  let denom : ℚ := max ((n : ℚ) / 10) 1
  min ((s : ℚ) / denom - (c : ℚ) / denom + 0.5) 1

/-- `RealFactChecker._analyze_content_patterns`: lower-case the text,
count suspicious and credible term hits, normalise by words-per-ten
(denominator floored at 1) and clamp above at 1. -/
def analyze_content_patterns (text : String) : ℚ :=
  let text_lower := lowerStr text
  pattern_score_core (countHits text_lower fake_indicators)
    (countHits text_lower credible_indicators) (countWords text)

/-- Output record of the external transformers classifier in the
multi-class (`return_all_scores=True`) shape handled at line 107 of
fact_checker.py: a list of label/score records, or a raised exception. -/
abbrev ClassifierOutput := Except String (List (String × ℚ))

/-- `RealFactChecker._get_ml_prediction`: run the classifier on the
512-character truncation, keep the score of the first label among
NEGATIVE/TOXIC/"1" (default 0.5), and return the neutral 0.5 when the
classifier raises. -/
def get_ml_prediction (classifier : String → ClassifierOutput)
    (text : String) : ℚ :=
  match classifier (text.take 512) with
  | .error _ => 0.5
  | .ok results =>
    match results.find? (fun r =>
        r.1 == "NEGATIVE" || r.1 == "TOXIC" || r.1 == "1") with
    | some r => r.2
    | none => 0.5

/-- Result of `_check_news_apis` (fields `found`, `credible`) or of
`_check_fact_checking_sites` (fields `found`, `verified`); the second
field is named `positive` to serve both. -/
structure CheckResult where
  found : Bool
  positive : Bool
deriving DecidableEq, Repr

/-- `RealFactChecker._check_news_apis`: no API key is wired in, so the
result is always not-found. -/
def check_news_apis (_key_phrases : List String) : CheckResult :=
  ⟨false, false⟩

/-- `RealFactChecker._check_fact_checking_sites`: always not-found. -/
def check_fact_checking_sites (_key_phrases : List String) : CheckResult :=
  ⟨false, false⟩

/-- Result dict of `RealFactChecker._real_time_verification`. -/
structure VerificationResult where
  score : ℚ
  news_check : CheckResult
  fact_check : CheckResult
deriving DecidableEq, Repr

/-- `RealFactChecker._real_time_verification`.  The regex-based
`_extract_key_phrases` is modelled as the opaque-to-us parameter
`extract`; its output is consumed only by the two constant-returning
check functions above. -/
def real_time_verification (extract : String → List String)
    (text : String) : VerificationResult :=
  let key_phrases := extract text
  let news_check := check_news_apis key_phrases
  let fact_check := check_fact_checking_sites key_phrases
  let s0 : ℚ := 0.5
  let s1 : ℚ :=
    if news_check.found then (if news_check.positive then 0.2 else 0.8)
    else s0
  let s2 : ℚ :=
    if fact_check.found then
      (s1 + (if fact_check.positive then 0.1 else 0.9)) / 2
    else s1
  ⟨s2, news_check, fact_check⟩

/-- `RealFactChecker._combine_scores`: weighted sum with weights
content 0.3, ml 0.5, verification 0.2, clamped to [0, 1]. -/
def combine_scores (content_score ml_score : ℚ)
    (verification_result : VerificationResult) : ℚ :=
  let verification_score := verification_result.score
  max 0 (min 1 (content_score * 0.3 + ml_score * 0.5 +
    verification_score * 0.2))

/-- `RealFactChecker._get_verdict`: the four-label 0.7/0.5/0.3 table. -/
def get_verdict (score : ℚ) : String :=
  if 0.7 ≤ score then "High Risk - Likely Misinformation"
  else if 0.5 ≤ score then "Medium Risk - Needs Verification"
  else if 0.3 ≤ score then "Low Risk - Likely Accurate"
  else "Verified - Highly Credible"

/-- `RealFactChecker._identify_warning_flags`: the four independent
checks, appended in source order. -/
def identify_warning_flags (text : String) : List String :=
  let text_lower := lowerStr text
  (if ["breaking", "exclusive", "leaked"].any
      (fun w => containsCL text_lower w.data)
   then ["Sensational Language"] else []) ++
  (if ["allegedly", "reportedly", "sources say"].any
      (fun w => containsCL text_lower w.data)
   then ["Unverified Claims"] else []) ++
  (if containsCL text.data "!!!".data || 3 < text.data.count '!'
   then ["Excessive Punctuation"] else []) ++
  (if 2 < upperRuns text then ["Excessive Capitalization"] else [])

/-- Result dict of `RealFactChecker.analyze_misinformation`; the
`analysis` sub-dict is flattened into the three sub-score fields. -/
structure ContentAnalysis where
  misinformation_probability : ℚ
  verdict : String
  confidence : ℚ
  content_patterns : ℚ
  ml_prediction : ℚ
  real_time_check : VerificationResult
  flags : List String
  timestamp : String
deriving DecidableEq, Repr

/-- `RealFactChecker.analyze_misinformation`: the full pipeline.  The
wall-clock `datetime.now().isoformat()` is the parameter `now`. -/
def analyze_misinformation (classifier : String → ClassifierOutput)
    (extract : String → List String) (now : String)
    (text : String) : ContentAnalysis :=
  let content_score := analyze_content_patterns text
  let ml_score := get_ml_prediction classifier text
  let verification_result := real_time_verification extract text
  let final_score := combine_scores content_score ml_score verification_result
  { misinformation_probability := final_score
    verdict := get_verdict final_score
    confidence := min (final_score * 1.2) 1
    content_patterns := content_score
    ml_prediction := ml_score
    real_time_check := verification_result
    flags := identify_warning_flags text
    timestamp := now }

/-! ## Python `sorted(..., key=..., reverse=True)`

Python's sort is stable; with `reverse=True` the order of elements with
equal keys is still the input order.  The model is the classical stable
insertion sort into descending key order: a new element is placed after
every already-placed element whose key is at least as large, which is
exactly the behaviour of a stable descending sort. -/

/-- Insert `a` into the descending-sorted list `l`: skip over elements
with a strictly larger key, stop at the first element whose key is at
most the key of `a`.  Elements of `l` stand to the right of `a` in the
original input, so stopping at equal keys keeps input order. -/
def insertDescBy (key : α → ℚ) (a : α) : List α → List α
  | [] => [a]
  | b :: bs => if key a < key b then b :: insertDescBy key a bs
               else a :: b :: bs

/-- Stable sort into descending key order:
Python `sorted(l, key=key, reverse=True)`. -/
def sortDescBy (key : α → ℚ) : List α → List α
  | [] => []
  | a :: as => insertDescBy key a (sortDescBy key as)

/-! ## src/backend/viral_tracker.py : ViralTracker -/

/-- The `timestamp` value of an input post dict: absent (Python then
substitutes `datetime.now()`), a string that fails to parse or to
compare (the bare `except` then forces `recency_boost = 0`), or a
parsed instant in seconds. -/
inductive PostTime where
  | missing
  | malformed
  | valid (t : ℚ)
deriving DecidableEq, Repr

/-- An input post record with the fields the tracker reads
(`post.get(...)` defaults applied upstream). -/
structure Post where
  id : String
  platform : String
  content : String
  engagement : Nat
  timestamp : PostTime
deriving DecidableEq, Repr

/-- `ViralTracker._calculate_viral_score` at wall-clock instant `now`
(seconds): base engagement score clamped at 1 plus a recency boost.
A missing timestamp defaults to the current time (zero hours ago). -/
def calculate_viral_score (now : ℚ) (post : Post) : ℚ :=
  let base_score := min ((post.engagement : ℚ) / 100000) 1
  let recency_boost :=
    match post.timestamp with
    | .missing => max 0 (1 - (((now - now) / 3600) / 24))
    | .malformed => 0
    | .valid t => max 0 (1 - (((now - t) / 3600) / 24))
  min (base_score + recency_boost * 0.2) 1

/-- `ViralTracker._calculate_spread_velocity`: the per-call
`random.uniform(0.5, 2.0)` draw is the explicit parameter `r`. -/
def calculate_spread_velocity (r : ℚ) (post : Post) : ℚ :=
  r * ((post.engagement : ℚ) / 10000)

/-- Output record of `ViralTracker.track_viral_content`. -/
structure ViralRecord where
  post_id : String
  platform : String
  content : String
  engagement : Nat
  viral_score : ℚ
  timestamp : PostTime
  velocity : ℚ
deriving DecidableEq, Repr

/-- The record appended for one viral post inside the loop of
`ViralTracker.track_viral_content`. -/
def make_viral_record (now : ℚ) (draw : Post → ℚ) (p : Post) : ViralRecord :=
  { post_id := p.id
    platform := p.platform
    content := p.content
    engagement := p.engagement
    viral_score := calculate_viral_score now p
    timestamp := p.timestamp
    velocity := calculate_spread_velocity (draw p) p }

/-- `ViralTracker.track_viral_content` with the configured
`viral_threshold` (source default 10000), at wall-clock `now`; `draw`
gives each post its `random.uniform(0.5, 2.0)` velocity factor. -/
def track_viral_content (threshold : Nat) (now : ℚ) (draw : Post → ℚ)
    (posts : List Post) : List ViralRecord :=
  let viral_posts :=
    (posts.filter (fun p => threshold < p.engagement)).map
      (make_viral_record now draw)
  sortDescBy (fun v => v.viral_score) viral_posts

/-! ## src/backend/origin_tracer.py : OriginTracer

The md5 content hash and the networkx-based influence analysis are
external components, modelled as function parameters `hashF` and
`netAnalyze`; the `random.uniform` / `random.randint` draws used for a
supplied suspect account are the indexed parameters `confDraw` and
`timeDraw`.  The hop timestamps that the source keeps as
`'%Y-%m-%d %H:%M:%S'` strings and parses with strptime are modelled as
parsed instants in seconds (here: seconds since 2025-09-01 00:00:00). -/

/-- An origin-candidate dict of `_identify_origin_candidates`. -/
structure OriginCandidate where
  account : String
  platform : String
  confidence : ℚ
  first_post : String
deriving DecidableEq, Repr

/-- The three hard-coded baseline candidates (`potential_origins`). -/
def potential_origins : List OriginCandidate :=
  [⟨"@anonymous_source", "Twitter", 0.85, "2025-09-01 06:30:00"⟩,
   ⟨"suspicious_page", "Facebook", 0.72, "2025-09-01 07:15:00"⟩,
   ⟨"@rumor_mill", "Instagram", 0.68, "2025-09-01 08:00:00"⟩]

/-- `OriginTracer._identify_origin_candidates`: the baseline list, plus
one candidate per supplied suspect account with a random confidence
(`confDraw i`, drawn from [0.6, 0.9]) and a random recent first-post
time (`timeDraw i`), sorted by confidence descending (stable).
The `content` argument is accepted and ignored, as in the source. -/
def identify_origin_candidates (confDraw : Nat → ℚ)
    (timeDraw : Nat → String) (content : String)
    (suspect_accounts : List String) : List OriginCandidate :=
  let _ := content
  let extra := suspect_accounts.enum.map (fun ia =>
    { account := ia.2
      platform := "Twitter"
      confidence := confDraw ia.1
      first_post := timeDraw ia.1 : OriginCandidate })
  sortDescBy (fun c => c.confidence) (potential_origins ++ extra)

/-- A propagation-hop dict (timestamps as parsed instants). -/
structure PropagationHop where
  hop : Nat
  platform : String
  account : String
  timestamp : ℚ
  engagement : Nat
  reach : Nat
  account_type : String
deriving DecidableEq, Repr

/-- `OriginTracer._trace_detailed_propagation`: the four hard-coded
hops; both arguments are accepted and ignored, as in the source.
Timestamps 06:30:00, 09:15:00, 14:20:00 and 18:45:00 on 2025-09-01 are
23400, 33300, 51600 and 67500 seconds into the day. -/
def trace_detailed_propagation (content content_hash : String) :
    List PropagationHop :=
  let _ := content
  let _ := content_hash
  [⟨0, "Twitter", "@origin_account", 23400, 150, 5000, "anonymous"⟩,
   ⟨1, "Facebook", "viral_news_page", 33300, 2500, 50000, "news_aggregator"⟩,
   ⟨2, "Instagram", "@influencer_account", 51600, 15000, 200000, "influencer"⟩,
   ⟨3, "Twitter", "@verified_news", 67500, 50000, 1000000, "media"⟩]

/-- A key-spreader dict of `_identify_key_spreaders`. -/
structure KeySpreader where
  account : String
  platform : String
  reach : Nat
  engagement : Nat
  risk_level : String
  account_type : String
deriving DecidableEq, Repr

/-- `OriginTracer._identify_key_spreaders`: hops with engagement above
10000 or reach above 100000, risk level high above 500000 reach,
sorted by reach descending. -/
def identify_key_spreaders (propagation_path : List PropagationHop) :
    List KeySpreader :=
  let key_spreaders := (propagation_path.filter (fun h =>
      10000 < h.engagement || 100000 < h.reach)).map (fun h =>
    { account := h.account
      platform := h.platform
      reach := h.reach
      engagement := h.engagement
      risk_level := if 500000 < h.reach then "high" else "medium"
      account_type := h.account_type : KeySpreader })
  sortDescBy (fun s => (s.reach : ℚ)) key_spreaders

/-- Boolean form of the loop of `_check_temporal_consistency`: true
when every consecutive timestamp pair strictly increases (the source
sets `consistent = False` as soon as `curr_time <= prev_time`). -/
def strictlyIncreasingTimes : List PropagationHop → Bool
  | [] => true
  | [_] => true
  | a :: b :: rest =>
    decide (a.timestamp < b.timestamp) &&
      strictlyIncreasingTimes (b :: rest)

/-- `OriginTracer._check_temporal_consistency`: 1.0 for a path shorter
than two hops or with strictly increasing timestamps, else 0.5. -/
def check_temporal_consistency (propagation_path : List PropagationHop) : ℚ :=
  if propagation_path.length < 2 then 1
  else if strictlyIncreasingTimes propagation_path then 1 else 0.5

/-- Python `max([c['confidence'] for c in origin_candidates])` for a
nonempty list (the caller guards emptiness). -/
def maxConfidence : List OriginCandidate → ℚ
  | [] => 0
  | c :: cs => cs.foldl (fun m x => max m x.confidence) c.confidence

/-- Python `round(q, 3)`. -/
def round3 (q : ℚ) : ℚ := (round (q * 1000) : ℤ) / 1000

/-- `OriginTracer._calculate_trace_confidence`: 0.0 when either input
is empty, else the rounded weighted combination of the best origin
confidence, the path completeness and the temporal consistency. -/
def calculate_trace_confidence (origin_candidates : List OriginCandidate)
    (propagation_path : List PropagationHop) : ℚ :=
  if origin_candidates.isEmpty || propagation_path.isEmpty then 0
  else
    let origin_confidence := maxConfidence origin_candidates
    let path_completeness := min ((propagation_path.length : ℚ) / 5) 1
    let temporal_consistency := check_temporal_consistency propagation_path
    round3 (origin_confidence * 0.4 + path_completeness * 0.3 +
      temporal_consistency * 0.3)

/-- A recommended-action dict of `_recommend_actions`. -/
structure RecommendedAction where
  type : String
  target : String
  platform : String
  priority : String
  action : String
deriving DecidableEq, Repr

/-- `OriginTracer._recommend_actions`.  The reach inside the monitor
message is rendered by `toString`; the Python f-string adds thousands
separators, which no claim depends on. -/
def recommend_actions (origin_candidates : List OriginCandidate)
    (key_spreaders : List KeySpreader) : List RecommendedAction :=
  let origin_actions : List RecommendedAction :=
    match origin_candidates with
    | [] => []
    | top_origin :: _ =>
      if 0.8 < top_origin.confidence then
        [{ type := "investigate_origin"
           target := top_origin.account
           platform := top_origin.platform
           priority := "high"
           action := "Deep investigation of account activity and connections" }]
      else []
  let spreader_actions := ((key_spreaders.take 3).filter (fun s =>
      s.risk_level == "high")).map (fun s =>
    { type := "monitor_spreader"
      target := s.account
      platform := s.platform
      priority := "medium"
      action := "Monitor account for future misinformation (Reach: " ++
        toString s.reach ++ ")" : RecommendedAction })
  origin_actions ++ spreader_actions

/-- Result dict of `OriginTracer.trace_rumor_origin`; the networkx
influence analysis is the abstract field type `ν`. -/
structure TraceResult (ν : Type) where
  content_hash : String
  origin_candidates : List OriginCandidate
  propagation_path : List PropagationHop
  network_analysis : ν
  key_spreaders : List KeySpreader
  trace_confidence : ℚ
  recommended_actions : List RecommendedAction

/-- `OriginTracer.trace_rumor_origin`.  `hashF` models the truncated
md5 digest of `_generate_content_hash`; `netAnalyze` models the
networkx-based `_analyze_influence_network`; an absent
`suspect_accounts` (Python `None`) and an empty list both take the
false branch of `if suspect_accounts:`, so both are the empty list. -/
def trace_rumor_origin {ν : Type} (hashF : String → String)
    (netAnalyze : List PropagationHop → ν) (confDraw : Nat → ℚ)
    (timeDraw : Nat → String) (content : String)
    (suspect_accounts : List String) : TraceResult ν :=
  let content_hash := hashF content
  let origin_candidates :=
    identify_origin_candidates confDraw timeDraw content suspect_accounts
  let propagation_path := trace_detailed_propagation content content_hash
  let network_analysis := netAnalyze propagation_path
  let key_spreaders := identify_key_spreaders propagation_path
  { content_hash := content_hash
    origin_candidates := origin_candidates
    propagation_path := propagation_path
    network_analysis := network_analysis
    key_spreaders := key_spreaders
    trace_confidence :=
      calculate_trace_confidence origin_candidates propagation_path
    recommended_actions :=
      recommend_actions origin_candidates key_spreaders }

/-! ## Reference definitions written from the spec's words

These two definitions follow spec.md, not the source; they exist only
to be compared against the embedded code. -/

/-- The published five-label verdict table of spec.md section 4.1 step 5:
thresholds 0.8 / 0.6 / 0.4 / 0.2. -/
def spec_verdict_table (score : ℚ) : String :=
  if 0.8 ≤ score then "High Risk - Likely Misinformation"
  else if 0.6 ≤ score then "Medium-High Risk - Needs Verification"
  else if 0.4 ≤ score then "Medium Risk - Uncertain"
  else if 0.2 ≤ score then "Low Risk - Likely Accurate"
  else "Verified - Highly Credible"

/-- Non-decreasing consecutive timestamps, the temporal-consistency
condition as spec.md section 4.3 step 7 words it (equal timestamps
allowed). -/
def nonDecreasingTimes : List PropagationHop → Bool
  | [] => true
  | [_] => true
  | a :: b :: rest =>
    decide (a.timestamp ≤ b.timestamp) && nonDecreasingTimes (b :: rest)

/-- Trace confidence as spec.md section 4.3 step 7 words it:
`temporal_consistency = 1.0` if every consecutive hop pair has
non-decreasing timestamps, else 0.5. -/
def spec_trace_confidence (origin_candidates : List OriginCandidate)
    (propagation_path : List PropagationHop) : ℚ :=
  if origin_candidates.isEmpty || propagation_path.isEmpty then 0
  else
    round3 (maxConfidence origin_candidates * 0.4 +
      min ((propagation_path.length : ℚ) / 5) 1 * 0.3 +
      (if nonDecreasingTimes propagation_path then (1 : ℚ) else 0.5) * 0.3)


/-! ## Helper lemmas about the stable descending sort -/

theorem insertDescBy_perm {α : Type} (key : α → ℚ) (a : α) (l : List α) :
    (insertDescBy key a l).Perm (a :: l) := by
  induction l with
  | nil => exact List.Perm.refl _
  | cons b bs ih =>
    simp only [insertDescBy]
    split
    · exact (ih.cons b).trans (List.Perm.swap a b bs)
    · exact List.Perm.refl _

theorem sortDescBy_perm {α : Type} (key : α → ℚ) (l : List α) :
    (sortDescBy key l).Perm l := by
  induction l with
  | nil => exact List.Perm.refl _
  | cons a as ih =>
    simp only [sortDescBy]
    exact (insertDescBy_perm key a _).trans (ih.cons a)

theorem insertDescBy_pairwise {α : Type} (key : α → ℚ) (a : α)
    (l : List α) (h : l.Pairwise (fun x y => key y ≤ key x)) :
    (insertDescBy key a l).Pairwise (fun x y => key y ≤ key x) := by
  induction l with
  | nil => simp [insertDescBy]
  | cons b bs ih =>
    rw [List.pairwise_cons] at h
    simp only [insertDescBy]
    split
    · rename_i hab
      rw [List.pairwise_cons]
      refine ⟨fun y hy => ?_, ih h.2⟩
      rcases List.mem_cons.mp ((insertDescBy_perm key a bs).mem_iff.mp hy) with
        h1 | h2
      · exact h1 ▸ le_of_lt hab
      · exact h.1 y h2
    · rename_i hab
      rw [List.pairwise_cons]
      refine ⟨fun y hy => ?_, List.pairwise_cons.mpr h⟩
      rcases List.mem_cons.mp hy with h1 | h2
      · exact h1 ▸ le_of_not_lt hab
      · exact le_trans (h.1 y h2) (le_of_not_lt hab)

theorem sortDescBy_pairwise {α : Type} (key : α → ℚ) (l : List α) :
    (sortDescBy key l).Pairwise (fun x y => key y ≤ key x) := by
  induction l with
  | nil => simp [sortDescBy]
  | cons a as ih =>
    simp only [sortDescBy]
    exact insertDescBy_pairwise key a _ ih

theorem insertDescBy_filter {α : Type} (key : α → ℚ) (q : ℚ) (a : α)
    (l : List α) :
    (insertDescBy key a l).filter (fun x => decide (key x = q)) =
      (a :: l).filter (fun x => decide (key x = q)) := by
  induction l with
  | nil => rfl
  | cons b bs ih =>
    by_cases hab : key a < key b
    · simp only [insertDescBy, if_pos hab]
      by_cases ha : key a = q <;> by_cases hb : key b = q
      · exact absurd (ha.trans hb.symm) (ne_of_lt hab)
      · simp only [List.filter_cons, ih]
        simp [ha, hb, List.filter_cons]
      · simp only [List.filter_cons, ih]
        simp [ha, hb, List.filter_cons]
      · simp only [List.filter_cons, ih]
        simp [ha, hb, List.filter_cons]
    · simp only [insertDescBy, if_neg hab]

theorem sortDescBy_filter {α : Type} (key : α → ℚ) (q : ℚ) (l : List α) :
    (sortDescBy key l).filter (fun x => decide (key x = q)) =
      l.filter (fun x => decide (key x = q)) := by
  induction l with
  | nil => rfl
  | cons a as ih =>
    simp only [sortDescBy]
    rw [insertDescBy_filter, List.filter_cons, List.filter_cons, ih]

/-! ## Helper lemmas about rounding and list maxima -/

theorem round_le_round {a b : ℚ} (h : a ≤ b) : round a ≤ round b := by
  rw [round_eq, round_eq]
  exact Int.floor_le_floor (by linarith)

theorem round3_nonneg_le_one (q : ℚ) (h0 : 0 ≤ q) (h1 : q ≤ 1) :
    0 ≤ round3 q ∧ round3 q ≤ 1 := by
  unfold round3
  have k0 : (0 : ℤ) ≤ round (q * 1000) := by
    have h := round_zero (α := ℚ)
    calc (0 : ℤ) = round (0 : ℚ) := h.symm
      _ ≤ round (q * 1000) := round_le_round (by nlinarith)
  have k1 : round (q * 1000) ≤ (1000 : ℤ) := by
    have h := round_intCast (α := ℚ) 1000
    calc round (q * 1000) ≤ round ((1000 : ℤ) : ℚ) :=
          round_le_round (by push_cast; nlinarith)
      _ = (1000 : ℤ) := h
  constructor
  · apply div_nonneg _ (by norm_num)
    exact_mod_cast k0
  · rw [div_le_one (by norm_num)]
    exact_mod_cast k1

theorem foldl_max_le_of (l : List OriginCandidate) (acc B : ℚ)
    (hacc : acc ≤ B) (h : ∀ c ∈ l, c.confidence ≤ B) :
    l.foldl (fun m x => max m x.confidence) acc ≤ B := by
  induction l generalizing acc with
  | nil => exact hacc
  | cons c cs ih =>
    simp only [List.foldl_cons]
    exact ih _ (max_le hacc (h c (List.mem_cons_self c cs)))
      (fun d hd => h d (List.mem_cons_of_mem c hd))

theorem le_foldl_max (l : List OriginCandidate) (acc : ℚ) :
    acc ≤ l.foldl (fun m x => max m x.confidence) acc := by
  induction l generalizing acc with
  | nil => exact le_refl _
  | cons c cs ih =>
    simp only [List.foldl_cons]
    exact le_trans (le_max_left acc c.confidence) (ih _)

theorem maxConfidence_nonneg (l : List OriginCandidate)
    (h : ∀ c ∈ l, 0 ≤ c.confidence) : 0 ≤ maxConfidence l := by
  cases l with
  | nil => exact le_refl 0
  | cons c cs =>
    exact le_trans (h c (List.mem_cons_self c cs)) (le_foldl_max cs _)

theorem maxConfidence_le (l : List OriginCandidate) (B : ℚ) (h0 : 0 ≤ B)
    (h : ∀ c ∈ l, c.confidence ≤ B) : maxConfidence l ≤ B := by
  cases l with
  | nil => exact h0
  | cons c cs =>
    exact foldl_max_le_of cs _ B (h c (List.mem_cons_self c cs))
      (fun d hd => h d (List.mem_cons_of_mem c hd))

/-- The verdict function only ever produces its four table labels; in
particular no fallback label exists. -/
theorem get_verdict_ne_fallback (s : ℚ) :
    get_verdict s ≠ "Medium Risk - System Fallback" := by
  unfold get_verdict
  split_ifs <;> decide

/-! ## Claim C2 : the pattern sub-score formula -/

/-- Claim C2, counterexample: on the text "confirmed verified" (two
credible terms, no suspicious terms, two words) the pattern sub-score
is -3/2, below 0, so the claimed formula (denominator n/10, baseline
0.4, clamp to [0,1]) and the claimed lower bound both fail. -/
theorem pattern_score_negative_on_credible_text :
    analyze_content_patterns "confirmed verified" = -3/2 ∧
      analyze_content_patterns "confirmed verified" < 0 := by decide

/-- Claim C2 as amended: the pattern sub-score equals
(s - c) / max(n/10, 1) + 0.5 clamped only from above at 1, where s and
c are membership counts of the fixed term lists and n the word count;
the score never exceeds 1 (but can be negative). -/
theorem pattern_score_code_formula (text : String) :
    (analyze_content_patterns text =
      min (((countHits (lowerStr text) fake_indicators : ℚ) -
          (countHits (lowerStr text) credible_indicators : ℚ)) /
          max ((countWords text : ℚ) / 10) 1 + 0.5) 1) ∧
    analyze_content_patterns text ≤ 1 := by
  constructor
  · simp only [analyze_content_patterns, pattern_score_core]
    rw [sub_div]
  · simp only [analyze_content_patterns, pattern_score_core]
    exact min_le_right _ _

/-! ## Claim C4 : the final probability is clamped to the unit interval -/

/-- Claim C4: the combination of the three sub-scores is clamped to
[0, 1] for arbitrary rational inputs (in particular for pattern
sub-scores outside [0, 1]), and therefore the misinformation
probability of every full-pipeline run lies in [0, 1]. -/
theorem final_probability_in_unit_interval (content_score ml_score : ℚ)
    (vr : VerificationResult) (classifier : String → ClassifierOutput)
    (extract : String → List String) (now text : String) :
    (0 ≤ combine_scores content_score ml_score vr ∧
      combine_scores content_score ml_score vr ≤ 1) ∧
    (0 ≤ (analyze_misinformation classifier extract now
        text).misinformation_probability ∧
      (analyze_misinformation classifier extract now
        text).misinformation_probability ≤ 1) := by
  have h : ∀ (c m : ℚ) (v : VerificationResult),
      0 ≤ combine_scores c m v ∧ combine_scores c m v ≤ 1 := by
    intro c m v
    unfold combine_scores
    exact ⟨le_max_left 0 _, max_le (by norm_num) (min_le_left 1 _)⟩
  exact ⟨h _ _ _, h _ _ _⟩

/-! ## Claim C1 : which verdict table the full pipeline uses -/

/-- Claim C1, counterexample: a full-pipeline run with probability
exactly 0.75 returns the verdict of the four-label 0.7/0.5/0.3 table
("High Risk - Likely Misinformation"), not the verdict of the
published five-label 0.8/0.6/0.4/0.2 table, which at 0.75 would be
"Medium-High Risk - Needs Verification". -/
theorem verdict_five_label_table_refuted :
    (analyze_misinformation (fun _ => .ok [("TOXIC", 1)]) (fun _ => [])
        "2025-09-01T00:00:00" "x").misinformation_probability = 0.75 ∧
    (analyze_misinformation (fun _ => .ok [("TOXIC", 1)]) (fun _ => [])
        "2025-09-01T00:00:00" "x").verdict ≠
      spec_verdict_table (analyze_misinformation (fun _ => .ok [("TOXIC", 1)])
        (fun _ => []) "2025-09-01T00:00:00" "x").misinformation_probability := by
  decide

/-- Claim C1 as amended: the verdict of every full-pipeline run is the
one of the four-label table with cut points 0.7, 0.5 and 0.3
(boundaries included in the higher band, with no off-by-one error at
exactly 0.3, 0.5 and 0.7): at least 0.7 is High Risk - Likely
Misinformation, at least 0.5 is Medium Risk - Needs Verification, at
least 0.3 is Low Risk - Likely Accurate, below 0.3 is Verified -
Highly Credible. -/
theorem verdict_code_table (classifier : String → ClassifierOutput)
    (extract : String → List String) (now text : String) (s : ℚ) :
    ((analyze_misinformation classifier extract now text).verdict =
      get_verdict (analyze_misinformation classifier extract now
        text).misinformation_probability) ∧
    (0.7 ≤ s → get_verdict s = "High Risk - Likely Misinformation") ∧
    (0.5 ≤ s → s < 0.7 → get_verdict s = "Medium Risk - Needs Verification") ∧
    (0.3 ≤ s → s < 0.5 → get_verdict s = "Low Risk - Likely Accurate") ∧
    (s < 0.3 → get_verdict s = "Verified - Highly Credible") := by
  refine ⟨rfl, ?_, ?_, ?_, ?_⟩
  · intro h
    unfold get_verdict
    rw [if_pos h]
  · intro h1 h2
    unfold get_verdict
    rw [if_neg (not_le.mpr h2), if_pos h1]
  · intro h1 h2
    unfold get_verdict
    rw [if_neg (not_le.mpr (h2.trans (by norm_num))),
      if_neg (not_le.mpr h2), if_pos h1]
  · intro h
    unfold get_verdict
    rw [if_neg (not_le.mpr (h.trans (by norm_num))),
      if_neg (not_le.mpr (h.trans (by norm_num))), if_neg (not_le.mpr h)]

/-! ## Claim C3 : error handling inside the scorer -/

/-- Claim C3, counterexample: when the ML classifier raises, the
pipeline does not return the claimed fallback analysis: the error is
absorbed as the neutral ML sub-score 0.5, the run continues and the
verdict is the ordinary table label "Medium Risk - Needs Verification",
not "Medium Risk - System Fallback", and nothing in the output flags a
fallback. -/
theorem ml_error_gives_no_fallback_analysis :
    (analyze_misinformation (fun _ => .error "boom") (fun _ => [])
        "2025-09-01T00:00:00" "x").ml_prediction = 0.5 ∧
    (analyze_misinformation (fun _ => .error "boom") (fun _ => [])
        "2025-09-01T00:00:00" "x").misinformation_probability = 0.5 ∧
    (analyze_misinformation (fun _ => .error "boom") (fun _ => [])
        "2025-09-01T00:00:00" "x").verdict =
      "Medium Risk - Needs Verification" ∧
    (analyze_misinformation (fun _ => .error "boom") (fun _ => [])
        "2025-09-01T00:00:00" "x").verdict ≠
      "Medium Risk - System Fallback" ∧
    (analyze_misinformation (fun _ => .error "boom") (fun _ => [])
        "2025-09-01T00:00:00" "x").flags = [] := by
  decide

/-- Claim C3 as amended: errors of the ML classifier are caught inside
the ML step and replaced by the neutral sub-score 0.5 (likewise the
verification step always yields the neutral 0.5 here), the pipeline
then proceeds normally, and no run ever carries the verdict
"Medium Risk - System Fallback" - no observable fallback analysis
exists in the code. -/
theorem ml_error_recovered_locally_no_fallback_label
    (classifier : String → ClassifierOutput)
    (extract : String → List String) (now text e : String) :
    (get_ml_prediction (fun _ => .error e) text = 0.5) ∧
    ((classifier (text.take 512)).isOk = false →
      (analyze_misinformation classifier extract now text).ml_prediction
        = 0.5) ∧
    ((analyze_misinformation classifier extract now text).verdict ≠
      "Medium Risk - System Fallback") ∧
    ((real_time_verification extract text).score = 0.5) := by
  refine ⟨rfl, ?_, get_verdict_ne_fallback _, rfl⟩
  intro h
  show get_ml_prediction classifier text = 0.5
  unfold get_ml_prediction
  split
  · rfl
  · rename_i res heq
    rw [heq] at h
    simp [Except.isOk, Except.toBool] at h

/-! ## Claim C9 : the excessive-punctuation flag -/

/-- Claim C9, counterexample: the text consisting of three exclamation
marks has only 3 of them (not more than 3), yet it receives the
excessive-punctuation flag, because the source also triggers the flag
on the substring of three consecutive exclamation marks. -/
theorem excessive_punctuation_at_three_bangs :
    "Excessive Punctuation" ∈ identify_warning_flags "!!!" ∧
      ¬ (3 < "!!!".data.count '!') := by decide

/-- Claim C9 as amended: the flags contain the excessive-punctuation
flag if and only if the text contains three consecutive exclamation
marks as a substring or more than 3 exclamation marks in total; a text
with four consecutive exclamation marks satisfies both disjuncts, so
it always receives the flag. -/
theorem excessive_punctuation_flag_iff (text : String) :
    ("Excessive Punctuation" ∈ identify_warning_flags text) ↔
      (containsCL text.data "!!!".data = true ∨
        3 < text.data.count '!') := by
  have key : ∀ (x : String) (c : Bool) (s : String),
      x ∈ (if c = true then [s] else ([] : List String)) ↔
        (c = true ∧ x = s) := by
    intro x c s
    cases c <;> simp
  have e1 : "Excessive Punctuation" ≠ "Sensational Language" := by decide
  have e2 : "Excessive Punctuation" ≠ "Unverified Claims" := by decide
  have e4 : "Excessive Punctuation" ≠ "Excessive Capitalization" := by decide
  simp only [identify_warning_flags, List.mem_append, key]
  simp [e1, e2, e4]

/-! ## Claim C8 : monotonicity of the pattern sub-score -/

/-- Claim C8, counterexample: injecting one occurrence of the
suspicious term "hoax" into the credible-term-free text "breaking"
leaves the pattern sub-score unchanged at the clamp value 1 instead of
strictly increasing it (term counting is by membership and the score
is clamped at 1). -/
theorem inject_suspicious_term_no_strict_increase :
    analyze_content_patterns "breaking" = 1 ∧
    analyze_content_patterns "breaking hoax" = 1 ∧
    countHits (lowerStr "breaking") credible_indicators = 0 ∧
    countHits (lowerStr "breaking hoax") credible_indicators = 0 ∧
    ¬ (analyze_content_patterns "breaking" <
        analyze_content_patterns "breaking hoax") := by decide

/-- Claim C8 as amended: with the word count held fixed, the pattern
sub-score is monotone (non-decreasing) in the suspicious membership
count, and strictly increasing when the incremented raw score is
still at most the clamp value 1; injecting term occurrences into a
text need not increase the score, because it also raises the word
count and an already-present term leaves the membership count
unchanged. -/
theorem pattern_score_monotone_in_suspicious_count (s s' c n : Nat) :
    (s ≤ s' → pattern_score_core s c n ≤ pattern_score_core s' c n) ∧
    (s < s' →
      (s' : ℚ) / max ((n : ℚ) / 10) 1 -
        (c : ℚ) / max ((n : ℚ) / 10) 1 + 0.5 ≤ 1 →
      pattern_score_core s c n < pattern_score_core s' c n) := by
  have hD : (0 : ℚ) < max ((n : ℚ) / 10) 1 :=
    lt_of_lt_of_le one_pos (le_max_right _ _)
  constructor
  · intro h
    simp only [pattern_score_core]
    apply min_le_min _ le_rfl
    have hs : (s : ℚ) / max ((n : ℚ) / 10) 1 ≤
        (s' : ℚ) / max ((n : ℚ) / 10) 1 :=
      (div_le_div_right hD).mpr (by exact_mod_cast h)
    linarith
  · intro h hle
    simp only [pattern_score_core]
    rw [min_eq_left hle]
    have hs : (s : ℚ) / max ((n : ℚ) / 10) 1 <
        (s' : ℚ) / max ((n : ℚ) / 10) 1 :=
      (div_lt_div_right hD).mpr (by exact_mod_cast h)
    calc min ((s : ℚ) / max ((n : ℚ) / 10) 1 -
          (c : ℚ) / max ((n : ℚ) / 10) 1 + 0.5) 1 ≤
        (s : ℚ) / max ((n : ℚ) / 10) 1 -
          (c : ℚ) / max ((n : ℚ) / 10) 1 + 0.5 := min_le_left _ _
      _ < (s' : ℚ) / max ((n : ℚ) / 10) 1 -
          (c : ℚ) / max ((n : ℚ) / 10) 1 + 0.5 := by linarith

/-! ## Claim C7 : the spread velocity -/

/-- Claim C7, counterexample: the velocity multiplies engagement by a
fresh uniform(0.5, 2.0) draw on every call, so with the admissible
draws 0.5 and 2.0 a post of engagement 20000 receives a strictly lower
velocity than a post of engagement 15000 (monotonicity in engagement
fails across calls), and two computations for the same engagement
10000 differ (reproducibility fails). -/
theorem spread_velocity_random_refutes_claim :
    ((1/2 : ℚ) ≤ 1/2 ∧ (1/2 : ℚ) ≤ 2 ∧ (1/2 : ℚ) ≤ 2 ∧ (2 : ℚ) ≤ 2) ∧
    (⟨"p2", "Twitter", "", 15000, PostTime.missing⟩ : Post).engagement <
      (⟨"p1", "Twitter", "", 20000, PostTime.missing⟩ : Post).engagement ∧
    calculate_spread_velocity (1/2)
        ⟨"p1", "Twitter", "", 20000, PostTime.missing⟩ <
      calculate_spread_velocity 2
        ⟨"p2", "Twitter", "", 15000, PostTime.missing⟩ ∧
    calculate_spread_velocity (1/2)
        ⟨"p3", "Twitter", "", 10000, PostTime.missing⟩ ≠
      calculate_spread_velocity 2
        ⟨"p3", "Twitter", "", 10000, PostTime.missing⟩ := by decide

/-- Claim C7 as amended: for every fixed draw of the random factor
(in particular every value the uniform(0.5, 2.0) draw can take), the
velocity is non-negative and monotone in engagement; across calls the
draw is sampled anew, so neither reproducibility nor cross-call
monotonicity holds (see the counterexample). -/
theorem spread_velocity_nonneg_monotone_for_fixed_draw (r : ℚ)
    (p q : Post) (hr : 1/2 ≤ r) :
    0 ≤ calculate_spread_velocity r p ∧
    (p.engagement ≤ q.engagement →
      calculate_spread_velocity r p ≤ calculate_spread_velocity r q) := by
  have hr0 : (0 : ℚ) ≤ r := le_trans (by norm_num) hr
  constructor
  · unfold calculate_spread_velocity
    exact mul_nonneg hr0 (div_nonneg (Nat.cast_nonneg _) (by norm_num))
  · intro h
    unfold calculate_spread_velocity
    apply mul_le_mul_of_nonneg_left _ hr0
    apply (div_le_div_right (by norm_num : (0:ℚ) < 10000)).mpr
    exact_mod_cast h

/-- Witness for the amended claim C7 at a concrete draw and posts. -/
theorem spread_velocity_witness :
    0 ≤ calculate_spread_velocity 1
      ⟨"p", "Twitter", "", 5000, PostTime.missing⟩ :=
  (spread_velocity_nonneg_monotone_for_fixed_draw 1
    ⟨"p", "Twitter", "", 5000, PostTime.missing⟩
    ⟨"q", "Twitter", "", 6000, PostTime.missing⟩ (by decide)).1

/-! ## Claim C6 : filtering and ordering of the viral tracker -/

/-- Unfolding equation for the tracker: filter, build records, then
stable descending sort. -/
theorem track_viral_content_eq (threshold : Nat) (now : ℚ)
    (draw : Post → ℚ) (posts : List Post) :
    track_viral_content threshold now draw posts =
      sortDescBy (fun v : ViralRecord => v.viral_score)
        ((posts.filter (fun p => threshold < p.engagement)).map
          (make_viral_record now draw)) := rfl

/-- Claim C6: the tracker's output consists exactly of the records made
from the posts whose engagement strictly exceeds the threshold (as a
permutation, so multiplicity-exact), every output record's engagement
exceeds the threshold (hence engagement 0 never appears for a positive
threshold), the output is sorted descending by viral score, ties keep
input order (the output filtered to any single viral-score value
equals the filtered input in order), and empty input gives empty
output. -/
theorem track_viral_content_filter_sort_stable (threshold : Nat)
    (now : ℚ) (draw : Post → ℚ) (posts : List Post) :
    (∀ r ∈ track_viral_content threshold now draw posts,
      threshold < r.engagement) ∧
    List.Pairwise (fun a b => b.viral_score ≤ a.viral_score)
      (track_viral_content threshold now draw posts) ∧
    (track_viral_content threshold now draw posts).Perm
      ((posts.filter (fun p => threshold < p.engagement)).map
        (make_viral_record now draw)) ∧
    (∀ q : ℚ, (track_viral_content threshold now draw posts).filter
        (fun r => decide (r.viral_score = q)) =
      ((posts.filter (fun p => threshold < p.engagement)).map
        (make_viral_record now draw)).filter
        (fun r => decide (r.viral_score = q))) ∧
    (posts = [] → track_viral_content threshold now draw posts = []) ∧
    (∀ r ∈ track_viral_content threshold now draw posts,
      0 < threshold → 0 < r.engagement) := by
  rw [track_viral_content_eq]
  have hperm : (sortDescBy (fun v : ViralRecord => v.viral_score)
      ((posts.filter (fun p => threshold < p.engagement)).map
        (make_viral_record now draw))).Perm
      ((posts.filter (fun p => threshold < p.engagement)).map
        (make_viral_record now draw)) :=
    sortDescBy_perm (fun v : ViralRecord => v.viral_score) _
  have hmem : ∀ r ∈ sortDescBy (fun v : ViralRecord => v.viral_score)
      ((posts.filter (fun p => threshold < p.engagement)).map
        (make_viral_record now draw)),
      threshold < r.engagement := by
    intro r hr
    rcases List.mem_map.mp (hperm.mem_iff.mp hr) with ⟨p, hp, hrp⟩
    have : threshold < p.engagement :=
      of_decide_eq_true (List.mem_filter.mp hp).2
    rw [← hrp]
    simpa [make_viral_record] using this
  refine ⟨hmem, ?_, hperm, ?_, ?_, ?_⟩
  · exact sortDescBy_pairwise (fun v : ViralRecord => v.viral_score) _
  · intro q
    exact sortDescBy_filter (fun v : ViralRecord => v.viral_score) q _
  · intro h
    subst h
    rfl
  · intro r hr hthr
    exact lt_trans hthr (hmem r hr)

/-! ## Claim C5 : the trace confidence -/

/-- Claim C5, counterexample: for one origin candidate of confidence
0.85 and a two-hop path whose timestamps are equal, the code demands
strictly increasing timestamps and scores the temporal consistency
0.5, giving 0.61, while the claimed non-decreasing condition would
score it 1.0, giving 0.76. -/
theorem trace_confidence_equal_timestamps_counterexample :
    calculate_trace_confidence
        [⟨"a", "Twitter", 0.85, "t"⟩]
        [⟨0, "Twitter", "x", 100, 0, 0, "anonymous"⟩,
         ⟨1, "Twitter", "y", 100, 0, 0, "anonymous"⟩] = 61/100 ∧
    spec_trace_confidence
        [⟨"a", "Twitter", 0.85, "t"⟩]
        [⟨0, "Twitter", "x", 100, 0, 0, "anonymous"⟩,
         ⟨1, "Twitter", "y", 100, 0, 0, "anonymous"⟩] = 76/100 ∧
    calculate_trace_confidence
        [⟨"a", "Twitter", 0.85, "t"⟩]
        [⟨0, "Twitter", "x", 100, 0, 0, "anonymous"⟩,
         ⟨1, "Twitter", "y", 100, 0, 0, "anonymous"⟩] ≠
      spec_trace_confidence
        [⟨"a", "Twitter", 0.85, "t"⟩]
        [⟨0, "Twitter", "x", 100, 0, 0, "anonymous"⟩,
         ⟨1, "Twitter", "y", 100, 0, 0, "anonymous"⟩] := by decide

/-- Claim C5 as amended: the trace confidence is 0.0 when either input
list is empty; otherwise it is round(0.4 * best origin confidence +
0.3 * min(path length / 5, 1) + 0.3 * temporal consistency, 3), where
the temporal consistency is 1.0 exactly when the consecutive
timestamps are strictly increasing (an equal consecutive pair already
degrades it to 0.5); and it lies in [0, 1] whenever every origin
confidence does. -/
theorem trace_confidence_formula_and_bounds
    (origin_candidates : List OriginCandidate)
    (propagation_path : List PropagationHop) :
    (origin_candidates = [] ∨ propagation_path = [] →
      calculate_trace_confidence origin_candidates propagation_path = 0) ∧
    (origin_candidates ≠ [] → propagation_path ≠ [] →
      calculate_trace_confidence origin_candidates propagation_path =
        round3 (maxConfidence origin_candidates * 0.4 +
          min ((propagation_path.length : ℚ) / 5) 1 * 0.3 +
          check_temporal_consistency propagation_path * 0.3)) ∧
    (strictlyIncreasingTimes propagation_path = true →
      check_temporal_consistency propagation_path = 1) ∧
    (strictlyIncreasingTimes propagation_path = false →
      check_temporal_consistency propagation_path = 0.5) ∧
    ((∀ c ∈ origin_candidates, 0 ≤ c.confidence ∧ c.confidence ≤ 1) →
      0 ≤ calculate_trace_confidence origin_candidates propagation_path ∧
        calculate_trace_confidence origin_candidates propagation_path ≤ 1) := by
  have htc : 0 ≤ check_temporal_consistency propagation_path ∧
      check_temporal_consistency propagation_path ≤ 1 := by
    unfold check_temporal_consistency
    split_ifs <;> norm_num
  refine ⟨?_, ?_, ?_, ?_, ?_⟩
  · intro h
    rcases h with h | h <;> simp [calculate_trace_confidence, h]
  · intro h1 h2
    simp [calculate_trace_confidence, List.isEmpty_iff, h1, h2]
  · intro h
    simp [check_temporal_consistency, h]
  · intro h
    match propagation_path, h with
    | a :: b :: rest, h =>
      have hlen : ¬ ((a :: b :: rest).length < 2) := by
        simp [List.length_cons]
      rw [check_temporal_consistency, if_neg hlen, if_neg (by simp [h])]
  · intro hb
    by_cases he : (origin_candidates.isEmpty || propagation_path.isEmpty) = true
    · rw [calculate_trace_confidence, if_pos he]
      norm_num
    · rw [calculate_trace_confidence, if_neg he]
      have hmc0 : 0 ≤ maxConfidence origin_candidates :=
        maxConfidence_nonneg _ (fun c hc => (hb c hc).1)
      have hmc1 : maxConfidence origin_candidates ≤ 1 :=
        maxConfidence_le _ 1 zero_le_one (fun c hc => (hb c hc).2)
      have hpc0 : (0 : ℚ) ≤ min ((propagation_path.length : ℚ) / 5) 1 :=
        le_min (by positivity) zero_le_one
      have hpc1 : min ((propagation_path.length : ℚ) / 5) 1 ≤ 1 :=
        min_le_right _ _
      exact round3_nonneg_le_one _ (by nlinarith [htc.1, htc.2])
        (by nlinarith [htc.1, htc.2])

/-! ## Claim C10 : content independence of the tracer fields -/

/-- Claim C10: when no suspect accounts are supplied, every field of
the trace result except the content hash - the origin candidates, the
propagation path, the network analysis, the key spreaders, the trace
confidence and the recommended actions - is identical for any two
content strings. -/
theorem trace_fields_content_independent {ν : Type}
    (hashF : String → String) (netAnalyze : List PropagationHop → ν)
    (confDraw : Nat → ℚ) (timeDraw : Nat → String) (c1 c2 : String) :
    (trace_rumor_origin hashF netAnalyze confDraw timeDraw c1
        []).origin_candidates =
      (trace_rumor_origin hashF netAnalyze confDraw timeDraw c2
        []).origin_candidates ∧
    (trace_rumor_origin hashF netAnalyze confDraw timeDraw c1
        []).propagation_path =
      (trace_rumor_origin hashF netAnalyze confDraw timeDraw c2
        []).propagation_path ∧
    (trace_rumor_origin hashF netAnalyze confDraw timeDraw c1
        []).network_analysis =
      (trace_rumor_origin hashF netAnalyze confDraw timeDraw c2
        []).network_analysis ∧
    (trace_rumor_origin hashF netAnalyze confDraw timeDraw c1
        []).key_spreaders =
      (trace_rumor_origin hashF netAnalyze confDraw timeDraw c2
        []).key_spreaders ∧
    (trace_rumor_origin hashF netAnalyze confDraw timeDraw c1
        []).trace_confidence =
      (trace_rumor_origin hashF netAnalyze confDraw timeDraw c2
        []).trace_confidence ∧
    (trace_rumor_origin hashF netAnalyze confDraw timeDraw c1
        []).recommended_actions =
      (trace_rumor_origin hashF netAnalyze confDraw timeDraw c2
        []).recommended_actions :=
  ⟨rfl, rfl, rfl, rfl, rfl, rfl⟩

end Soteria
